import Mathlib

/-!
Shallow embedding of the scheduled-action core of the youtube-automation
backend: the Video record and its status machine (app/models/video.py), the
YouTube service adapter (app/services/youtube_service.py), the Celery tasks
(app/tasks/upload_tasks.py) and the scheduling endpoints
(app/routers/videos.py).

External effects (the Google credential library's expiry flag, the network
outcome of a token refresh, of a YouTube upload and of a YouTube delete) are
modelled as oracle inputs; datetimes are integers; Mongo documents are Lean
structures and a collection is a list of documents keyed by the `id` field.
-/

namespace YTSched

/-- The `VideoStatus` enum from app/models/video.py. -/
inductive VideoStatus where
  | uploading
  | uploaded
  | scheduled
  | processing
  | published
  | failed
  | deleted
deriving DecidableEq, Repr

/-- The `schedule` sub-document of a video record.  The pydantic model
declares the first six fields; `youtube_channel_id` is written into the
sub-document by the schedule-upload endpoint via a dotted `$set` key. -/
structure VideoSchedule where
  upload_scheduled_at : Option Int
  delete_scheduled_at : Option Int
  youtube_video_id : Option String
  youtube_url : Option String
  upload_job_id : Option String
  delete_job_id : Option String
  youtube_channel_id : Option String
deriving DecidableEq, Repr

/-- A persisted video document, restricted to the fields the scheduled-action
core reads or writes.  `youtube_channel_id` here is the TOP-LEVEL field of the
document that the cleanup sweep reads with a dict get; it is distinct from
`schedule.youtube_channel_id`. -/
structure VideoDoc where
  id : String
  user_id : String
  title : String
  status : VideoStatus
  schedule : VideoSchedule
  youtube_channel_id : Option String
  updated_at : Int
deriving DecidableEq, Repr

/-- A persisted youtube-channel document (token fields only). -/
structure ChannelDoc where
  id : String
  access_token : String
  refresh_token : String
deriving DecidableEq, Repr

/-- The in-memory credential object handed across layers.  `expired` is the
external library's expiry observable (`credentials.expired`). -/
structure Credentials where
  token : String
  refresh_token : String
  expired : Bool
deriving DecidableEq, Repr

/-- Persistent state seen by the core: the `videos` and `youtube_channels`
collections plus the ids of tasks currently pending in the Celery broker
(a task id is invocable iff it is in `pending`). -/
structure AppState where
  videos : List VideoDoc
  channels : List ChannelDoc
  pending : List String
deriving DecidableEq, Repr

/-- Network outcome of `credentials.refresh(Request())`: a fresh access token,
or an exception. -/
inductive RefreshOutcome where
  | ok (newToken : String)
  | err
deriving DecidableEq, Repr

/-- Network outcome of the resumable YouTube insert: a remote video id, or an
exception. -/
inductive UploadOutcome where
  | ok (videoId : String)
  | err
deriving DecidableEq, Repr

/-- Network outcome of `service.videos().delete(...).execute()`: success, an
HTTP 404 (video already gone), or any other exception. -/
inductive RemoteDeleteOutcome where
  | ok
  | notFound
  | otherError
deriving DecidableEq, Repr

/-- Embeds `YouTubeService.get_credentials_from_token`: builds a credential object
from the stored token pair.  The expiry observable of the resulting library
object is supplied by the oracle flag. -/
def get_credentials_from_token (access_token refresh_token : String)
    (expiredFlag : Bool) : Credentials :=
  { token := access_token, refresh_token := refresh_token, expired := expiredFlag }

/-- Embeds `YouTubeService.refresh_credentials`: refreshes only when the credential
is expired and carries a (truthy) refresh token; any exception during refresh
yields `None`.  No database write happens here. -/
def refresh_credentials (c : Credentials) (o : RefreshOutcome) : Option Credentials :=
  if c.expired && !c.refresh_token.isEmpty then
    match o with
    | .ok t => some { c with token := t, expired := false }
    | .err => none
  else
    some c

/-- Watch URL built by `YouTubeService.upload_video` from the returned id. -/
def youtube_url_of (i : String) : String :=
  "https://www.youtube.com/watch?v=" ++ i

/-- Embeds `YouTubeService.upload_video`: on success returns the remote video id and
its watch URL; any failure raises (modelled as `Except.error`). -/
def upload_video (o : UploadOutcome) : Except Unit (String × String) :=
  match o with
  | .ok i => .ok (i, youtube_url_of i)
  | .err => .error ()

/-- Embeds `YouTubeService.delete_video`: returns `True` on success and `False` on
ANY exception — an HTTP 404 (`notFound`) is caught by the blanket
`except Exception` and reported as `False` exactly like any other error. -/
def delete_video (o : RemoteDeleteOutcome) : Bool :=
  match o with
  | .ok => true
  | .notFound => false
  | .otherError => false

/-- Python truthiness of an optional string field (`if doc.get(k):`). -/
def strTruthy : Option String → Bool
  | some s => !s.isEmpty
  | none => false

/-- Embeds `db.videos.update_one` with a `$set` document, under unique ids:
rewrite the matching document, leave the rest untouched. -/
def updateVideo (videos : List VideoDoc) (video_id : String)
    (f : VideoDoc → VideoDoc) : List VideoDoc :=
  videos.map (fun v => if v.id = video_id then f v else v)

/-- Embeds `db.videos.find_one` keyed by id. -/
def findVideo (videos : List VideoDoc) (video_id : String) : Option VideoDoc :=
  videos.find? (fun v => decide (v.id = video_id))

/-- Status of the video document with the given id, if present. -/
def videoStatus (st : AppState) (video_id : String) : Option VideoStatus :=
  (findVideo st.videos video_id).map (fun v => v.status)

/-- Oracle inputs consumed by one execution of the upload task. -/
structure UploadOracle where
  credsExpired : Bool
  refresh : RefreshOutcome
  upload : UploadOutcome
deriving DecidableEq, Repr

/-- One execution of the Celery task `upload_video_to_youtube` (one attempt).
Control flow of app/tasks/upload_tasks.py lines 21-90: look up video and
channel; mark the video `processing`; build and refresh credentials; call the
adapter; on success persist `published` plus the remote id and URL; on ANY
exception the `except` block sets the status to `failed` and then calls
`self.retry`.  Returns the new state and whether the attempt succeeded
(`false` means the attempt ended in `raise self.retry`). -/
def upload_attempt (st : AppState) (video_id user_id youtube_channel_id : String)
    (orc : UploadOracle) (now : Int) : AppState × Bool :=
  match findVideo st.videos video_id,
        st.channels.find? (fun c => decide (c.id = youtube_channel_id)) with
  | some _, some ch =>
    let st1 := { st with videos := (updateVideo st.videos video_id
      (fun v => { v with status := .processing })) }
    let creds := get_credentials_from_token ch.access_token ch.refresh_token orc.credsExpired
    match refresh_credentials creds orc.refresh with
    | none =>
      ({ st1 with videos := (updateVideo st1.videos video_id
        (fun v => { v with status := .failed })) }, false)
    | some _ =>
      match upload_video orc.upload with
      | .error _ =>
        ({ st1 with videos := (updateVideo st1.videos video_id
          (fun v => { v with status := .failed })) }, false)
      | .ok (vid, url) =>
        ({ st1 with videos := (updateVideo st1.videos video_id
          (fun v => { v with
            status := .published,
            schedule := { v.schedule with
              youtube_video_id := some vid, youtube_url := some url },
            updated_at := now })) }, true)
  | _, _ =>
    ({ st with videos := (updateVideo st.videos video_id
      (fun v => { v with status := .failed })) }, false)

/-- Celery retry budget of the upload and delete tasks
(`self.retry(..., max_retries=3)`): up to 3 re-executions after the first
attempt. -/
def max_retries : Nat := 3

/-- Re-execution loop the Celery broker performs on `self.retry`: run the
attempts in order, stopping at the first success; each list element is the
oracle for one attempt (at most `1 + max_retries` of them). -/
def upload_retry_run (st : AppState) (video_id user_id youtube_channel_id : String)
    (orcs : List UploadOracle) (now : Int) : AppState :=
  match orcs with
  | [] => st
  | o :: rest =>
    let r := upload_attempt st video_id user_id youtube_channel_id o now
    if r.2 then r.1 else upload_retry_run r.1 video_id user_id youtube_channel_id rest now

/-- Oracle inputs consumed by one execution of the delete task. -/
structure DeleteOracle where
  credsExpired : Bool
  refresh : RefreshOutcome
  remoteDelete : RemoteDeleteOutcome
deriving DecidableEq, Repr

/-- One execution of the Celery task `delete_video_from_youtube` (one
attempt).  Control flow of app/tasks/upload_tasks.py lines 92-139: look up the
channel; build and refresh credentials; call `delete_video`; if it returned
`True`, persist `deleted` and clear the remote id and URL; otherwise raise,
which lands in the `except` block that only calls `self.retry` — no database
write happens on any failure path. -/
def delete_attempt (st : AppState)
    (video_id youtube_video_id user_id youtube_channel_id : String)
    (orc : DeleteOracle) (now : Int) : AppState × Bool :=
  match st.channels.find? (fun c => decide (c.id = youtube_channel_id)) with
  | none => (st, false)
  | some ch =>
    let creds := get_credentials_from_token ch.access_token ch.refresh_token orc.credsExpired
    match refresh_credentials creds orc.refresh with
    | none => (st, false)
    | some _ =>
      if delete_video orc.remoteDelete then
        ({ st with videos := (updateVideo st.videos video_id
          (fun v => { v with
            status := .deleted,
            schedule := { v.schedule with
              youtube_video_id := none, youtube_url := none },
            updated_at := now })) }, true)
      else (st, false)

/-- Re-execution loop for the delete task, as for the upload task. -/
def delete_retry_run (st : AppState)
    (video_id youtube_video_id user_id youtube_channel_id : String)
    (orcs : List DeleteOracle) (now : Int) : AppState :=
  match orcs with
  | [] => st
  | o :: rest =>
    let r := delete_attempt st video_id youtube_video_id user_id youtube_channel_id o now
    if r.2 then r.1
    else delete_retry_run r.1 video_id youtube_video_id user_id youtube_channel_id rest now

/-- Client-visible errors of the scheduling endpoints: HTTP 404 and the
HTTP 400 "Video not uploaded to YouTube yet" (the spec's `InvalidState`). -/
inductive ApiError where
  | notFound
  | invalidState
deriving DecidableEq, Repr

/-- Embeds the schedule-upload endpoint (app/routers/videos.py lines 255-313):
look up the video by id and owner; `$set` the schedule fields
(`schedule.upload_scheduled_at`, `schedule.youtube_channel_id`), the status
`scheduled` and `updated_at`; `apply_async` a new upload task (its id becomes
pending in the broker); then `$set` `schedule.upload_job_id`.  No status or
timestamp validation and no cancellation of a previously recorded job occurs
anywhere. -/
def schedule_upload (st : AppState) (video_id : String) (scheduled_at : Int)
    (youtube_channel_id user_id : String) (now : Int) (newTaskId : String) :
    AppState × Except ApiError String :=
  match st.videos.find? (fun v => decide (v.id = video_id ∧ v.user_id = user_id)) with
  | none => (st, .error .notFound)
  | some _ =>
    let st1 := { st with videos := (updateVideo st.videos video_id
      (fun v => { v with
        schedule := { v.schedule with
          upload_scheduled_at := some scheduled_at,
          youtube_channel_id := some youtube_channel_id },
        status := .scheduled,
        updated_at := now })) }
    let st2 := { st1 with pending := st1.pending ++ [newTaskId] }
    let st3 := { st2 with videos := (updateVideo st2.videos video_id
      (fun v => { v with
        schedule := { v.schedule with upload_job_id := some newTaskId } })) }
    (st3, .ok newTaskId)

/-- Argument tuple passed to `delete_video_from_youtube.delay` /
`.apply_async`. -/
structure DeleteTaskArgs where
  video_id : String
  youtube_video_id : String
  user_id : String
  youtube_channel_id : String
deriving DecidableEq, Repr

/-- Embeds the schedule-delete endpoint (app/routers/videos.py lines 315-381):
look up the video by id and owner; reject with HTTP 400 (`InvalidState`) if
`schedule.youtube_video_id` is falsy, before any write; otherwise `$set`
`schedule.delete_scheduled_at` and `updated_at`, `apply_async` a delete task
whose channel-id argument is `schedule.youtube_channel_id` defaulted to the
empty string, then `$set` `schedule.delete_job_id`.  Returns the enqueued
task's id and argument tuple on success. -/
def schedule_delete (st : AppState) (video_id : String) (scheduled_at : Int)
    (user_id : String) (now : Int) (newTaskId : String) :
    AppState × Except ApiError (String × DeleteTaskArgs) :=
  match st.videos.find? (fun v => decide (v.id = video_id ∧ v.user_id = user_id)) with
  | none => (st, .error .notFound)
  | some v =>
    if strTruthy v.schedule.youtube_video_id then
      let args : DeleteTaskArgs :=
        { video_id := video_id,
          youtube_video_id := (v.schedule.youtube_video_id).getD "",
          user_id := user_id,
          youtube_channel_id := (v.schedule.youtube_channel_id).getD "" }
      let st1 := { st with videos := (updateVideo st.videos video_id
        (fun w => { w with
          schedule := { w.schedule with delete_scheduled_at := some scheduled_at },
          updated_at := now })) }
      let st2 := { st1 with pending := st1.pending ++ [newTaskId] }
      let st3 := { st2 with videos := (updateVideo st2.videos video_id
        (fun w => { w with
          schedule := { w.schedule with delete_job_id := some newTaskId } })) }
      (st3, .ok (newTaskId, args))
    else (st, .error .invalidState)

/-- The Mongo query of the cleanup sweep:
`schedule.delete_scheduled_at <= now` (field present) and status in
`[published, scheduled]`. -/
def sweepMatch (now : Int) (v : VideoDoc) : Bool :=
  (match v.schedule.delete_scheduled_at with
   | some t => decide (t ≤ now)
   | none => false)
  && decide (v.status = .published ∨ v.status = .scheduled)

/-- The Celery beat task `cleanup_expired_videos`
(app/tasks/upload_tasks.py lines 141-167): query the matching videos and, for
each whose `schedule.youtube_video_id` is truthy, enqueue a delete task whose
channel-id argument reads the TOP-LEVEL `youtube_channel_id` field defaulted
to the empty string.  The loop performs no database write, so the videos
collection is returned unchanged alongside the enqueued argument tuples. -/
def cleanup_expired_videos (videos : List VideoDoc) (now : Int) :
    List VideoDoc × List DeleteTaskArgs :=
  let matched := videos.filter (sweepMatch now)
  let args := (matched.filter (fun v => strTruthy v.schedule.youtube_video_id)).map
    (fun v =>
      { video_id := v.id,
        youtube_video_id := (v.schedule.youtube_video_id).getD "",
        user_id := v.user_id,
        youtube_channel_id := (v.youtube_channel_id).getD "" })
  (videos, args)

/-- The remote-id field of the video with the given id, if present. -/
def videoRemoteId (st : AppState) (video_id : String) : Option (Option String) :=
  (findVideo st.videos video_id).map (fun v => v.schedule.youtube_video_id)

/-- The remote-URL field of the video with the given id, if present. -/
def videoRemoteUrl (st : AppState) (video_id : String) : Option (Option String) :=
  (findVideo st.videos video_id).map (fun v => v.schedule.youtube_url)

/-- The upload-schedule field of the video with the given id, if present. -/
def videoUploadAt (st : AppState) (video_id : String) : Option (Option Int) :=
  (findVideo st.videos video_id).map (fun v => v.schedule.upload_scheduled_at)

/-! ### Sample documents used to exercise the definitions -/

/-- Schedule of a published video that carries a remote id, an overdue delete
time and a recorded pending upload job. -/
def schedSample : VideoSchedule :=
  { upload_scheduled_at := some 0, delete_scheduled_at := some 50,
    youtube_video_id := some "yt1", youtube_url := some (youtube_url_of "yt1"),
    upload_job_id := some "t1", delete_job_id := none, youtube_channel_id := some "c1" }

/-- A published video document. -/
def vSample : VideoDoc :=
  { id := "v1", user_id := "u1", title := "demo", status := .published,
    schedule := schedSample, youtube_channel_id := none, updated_at := 0 }

/-- A connected channel document. -/
def chSample : ChannelDoc :=
  { id := "c1", access_token := "oldTok", refresh_token := "r1" }

/-- A state holding the sample video, the sample channel, and the pending
upload task recorded on the sample video. -/
def stSample : AppState :=
  { videos := [vSample], channels := [chSample], pending := ["t1"] }

/-- Schedule of a never-published video (no remote id) whose delete time is
overdue. -/
def schedNoYt : VideoSchedule :=
  { upload_scheduled_at := none, delete_scheduled_at := some 0,
    youtube_video_id := none, youtube_url := none,
    upload_job_id := none, delete_job_id := none, youtube_channel_id := none }

/-- A published video document with no remote id. -/
def vNoYt : VideoDoc :=
  { id := "v2", user_id := "u1", title := "demo2", status := .published,
    schedule := schedNoYt, youtube_channel_id := none, updated_at := 0 }

/-- A state holding only the never-published sample video. -/
def stNoYt : AppState :=
  { videos := [vNoYt], channels := [chSample], pending := [] }

/-- Upload oracle for an attempt whose adapter call fails. -/
def orcFail : UploadOracle :=
  { credsExpired := false, refresh := .ok "n", upload := .err }

/-! ### Helper lemmas about the embedded database primitives -/

theorem mem_updateVideo_iff {videos : List VideoDoc} {video_id : String}
    {f : VideoDoc → VideoDoc} {w : VideoDoc} :
    w ∈ updateVideo videos video_id f ↔
      ∃ v, v ∈ videos ∧ (if v.id = video_id then f v else v) = w := by
  simp [updateVideo, List.mem_map]

theorem updateVideo_map_congr {α : Type} {g : VideoDoc → α} {f : VideoDoc → VideoDoc}
    (h : ∀ v, g (f v) = g v) (videos : List VideoDoc) (video_id : String) :
    (updateVideo videos video_id f).map g = videos.map g := by
  induction videos with
  | nil => rfl
  | cons v vs ih =>
    simp only [updateVideo, List.map_cons] at ih ⊢
    by_cases hv : v.id = video_id
    · rw [if_pos hv, h v, ih]
    · rw [if_neg hv, ih]

theorem mem_updateVideo_self {videos : List VideoDoc} {video_id : String}
    {f : VideoDoc → VideoDoc} {v : VideoDoc}
    (hv : v ∈ videos) (hid : v.id = video_id) :
    f v ∈ updateVideo videos video_id f :=
  mem_updateVideo_iff.mpr ⟨v, hv, by rw [if_pos hid]⟩

theorem mem_updateVideo_target {videos : List VideoDoc} {video_id : String}
    {f : VideoDoc → VideoDoc} {w : VideoDoc}
    (hw : w ∈ updateVideo videos video_id f) (hid : w.id = video_id)
    (hf : ∀ v, (f v).id = v.id) :
    ∃ v, v ∈ videos ∧ v.id = video_id ∧ w = f v := by
  rcases mem_updateVideo_iff.mp hw with ⟨v, hv, he⟩
  by_cases h : v.id = video_id
  · exact ⟨v, hv, h, by rw [← he, if_pos h]⟩
  · rw [if_neg h] at he
    exact absurd (he ▸ hid) h

theorem exists_id_of_ids_eq {videos1 videos2 : List VideoDoc}
    (h : videos2.map (fun v => v.id) = videos1.map (fun v => v.id))
    {vid : String} (hex : ∃ w ∈ videos1, w.id = vid) :
    ∃ w ∈ videos2, w.id = vid := by
  rcases hex with ⟨w, hw, hid⟩
  have hm : vid ∈ videos1.map (fun v => v.id) := List.mem_map.mpr ⟨w, hw, hid⟩
  rw [← h] at hm
  rcases List.mem_map.mp hm with ⟨u, hu, hu2⟩
  exact ⟨u, hu, hu2⟩

theorem findVideo_spec {videos : List VideoDoc} {vid : String}
    (hex : ∃ w ∈ videos, w.id = vid) :
    ∃ u, findVideo videos vid = some u ∧ u ∈ videos ∧ u.id = vid := by
  rcases hex with ⟨w, hw, hid⟩
  have hs : (videos.find? (fun v => decide (v.id = vid))).isSome :=
    List.find?_isSome.mpr ⟨w, hw, by simp [hid]⟩
  cases hf : videos.find? (fun v => decide (v.id = vid)) with
  | none => rw [hf] at hs; simp at hs
  | some u =>
    refine ⟨u, hf, List.mem_of_find?_eq_some hf, ?_⟩
    have hp := List.find?_some hf
    simpa using hp

theorem videoObs_eq_of_all {α : Type} (g : VideoDoc → α) {videos : List VideoDoc}
    {vid : String} {a : α}
    (hex : ∃ w ∈ videos, w.id = vid)
    (hall : ∀ w ∈ videos, w.id = vid → g w = a) :
    (findVideo videos vid).map g = some a := by
  rcases findVideo_spec hex with ⟨u, hf, hu, hid⟩
  rw [hf]
  simp [hall u hu hid]

/-! ### Shape lemmas for the delete task -/

theorem delete_attempt_shape (st : AppState)
    (video_id youtube_video_id user_id youtube_channel_id : String)
    (orc : DeleteOracle) (now : Int) :
    delete_attempt st video_id youtube_video_id user_id youtube_channel_id orc now
        = (st, false) ∨
    delete_attempt st video_id youtube_video_id user_id youtube_channel_id orc now
        = ({ st with videos := (updateVideo st.videos video_id
            (fun v => { v with
              status := .deleted,
              schedule := { v.schedule with
                youtube_video_id := none, youtube_url := none },
              updated_at := now })) }, true) := by
  simp only [delete_attempt]
  cases hc : st.channels.find? (fun c => decide (c.id = youtube_channel_id)) with
  | none => exact Or.inl rfl
  | some ch =>
    dsimp only
    cases hr : refresh_credentials
        (get_credentials_from_token ch.access_token ch.refresh_token orc.credsExpired)
        orc.refresh with
    | none => exact Or.inl rfl
    | some c2 =>
      dsimp only
      by_cases hd : delete_video orc.remoteDelete = true
      · exact Or.inr (by simp [hd])
      · exact Or.inl (by simp [hd])

theorem delete_attempt_fail_eq {st : AppState}
    {video_id youtube_video_id user_id youtube_channel_id : String}
    {orc : DeleteOracle} {now : Int}
    (h : (delete_attempt st video_id youtube_video_id user_id youtube_channel_id orc now).2
        = false) :
    (delete_attempt st video_id youtube_video_id user_id youtube_channel_id orc now).1 = st := by
  rcases delete_attempt_shape st video_id youtube_video_id user_id youtube_channel_id orc now
    with hs | hs
  · rw [hs]
  · rw [hs] at h; simp at h

theorem delete_video_eq_false_of_ne_ok {o : RemoteDeleteOutcome} (h : o ≠ .ok) :
    delete_video o = false := by
  cases o with
  | ok => exact absurd rfl h
  | notFound => rfl
  | otherError => rfl

theorem delete_attempt_snd_false_of_ne_ok {st : AppState}
    {video_id youtube_video_id user_id youtube_channel_id : String}
    {orc : DeleteOracle} {now : Int} (h : orc.remoteDelete ≠ .ok) :
    (delete_attempt st video_id youtube_video_id user_id youtube_channel_id orc now).2
      = false := by
  simp only [delete_attempt]
  cases hc : st.channels.find? (fun c => decide (c.id = youtube_channel_id)) with
  | none => rfl
  | some ch =>
    dsimp only
    cases hr : refresh_credentials
        (get_credentials_from_token ch.access_token ch.refresh_token orc.credsExpired)
        orc.refresh with
    | none => rfl
    | some c2 =>
      dsimp only
      simp [delete_video_eq_false_of_ne_ok h]

/-- C1 counterexample: in the sample state the channel is found and the
credentials need no refresh, the remote delete reports `NotFound`, yet the
attempt is reported as a failure (`self.retry` is raised) and the video's
status is still `published`, not `deleted`. -/
theorem c1_counterexample :
    (delete_attempt stSample "v1" "yt1" "u1" "c1"
      { credsExpired := false, refresh := .ok "n", remoteDelete := .notFound } 10).2
      = false ∧
    videoStatus (delete_attempt stSample "v1" "yt1" "u1" "c1"
      { credsExpired := false, refresh := .ok "n", remoteDelete := .notFound } 10).1 "v1"
      = some .published := by
  exact ⟨rfl, rfl⟩

/-- C1 (amended): a delete task execution in which the Remote Media Adapter
reports `NotFound` is treated exactly like any other delete failure — the
blanket `except` in `YouTubeService.delete_video` turns the 404 into `False`,
the task raises `self.retry`, and the video record is left unchanged (in
particular its status never becomes `deleted`). -/
theorem c1_notFound_treated_as_failure (st : AppState)
    (video_id youtube_video_id user_id youtube_channel_id : String)
    (orc : DeleteOracle) (now : Int) (h : orc.remoteDelete = .notFound) :
    delete_attempt st video_id youtube_video_id user_id youtube_channel_id orc now
      = (st, false) := by
  have hsnd : (delete_attempt st video_id youtube_video_id user_id youtube_channel_id
      orc now).2 = false :=
    delete_attempt_snd_false_of_ne_ok (by rw [h]; intro hc; cases hc)
  have hfst := delete_attempt_fail_eq hsnd
  calc delete_attempt st video_id youtube_video_id user_id youtube_channel_id orc now
      = ((delete_attempt st video_id youtube_video_id user_id youtube_channel_id orc now).1,
         (delete_attempt st video_id youtube_video_id user_id youtube_channel_id orc now).2) := rfl
    _ = (st, false) := by rw [hsnd, hfst]

/-- C1 witness: the amended statement evaluated at the sample state with a
`NotFound` delete outcome. -/
theorem c1_notFound_treated_as_failure_witness :
    delete_attempt stSample "v1" "yt1" "u1" "c1"
      { credsExpired := false, refresh := .ok "n", remoteDelete := .notFound } 10
      = (stSample, false) :=
  c1_notFound_treated_as_failure stSample "v1" "yt1" "u1" "c1"
    { credsExpired := false, refresh := .ok "n", remoteDelete := .notFound } 10 rfl

theorem delete_retry_run_fail_eq
    (video_id youtube_video_id user_id youtube_channel_id : String) (now : Int) :
    ∀ (orcs : List DeleteOracle) (st : AppState),
      (∀ o ∈ orcs, o.remoteDelete ≠ .ok) →
      delete_retry_run st video_id youtube_video_id user_id youtube_channel_id orcs now
        = st := by
  intro orcs
  induction orcs with
  | nil => intro st _; rfl
  | cons o rest ih =>
    intro st hall
    have hsnd : (delete_attempt st video_id youtube_video_id user_id youtube_channel_id
        o now).2 = false :=
      delete_attempt_snd_false_of_ne_ok (hall o (List.mem_cons_self o rest))
    have hfst := delete_attempt_fail_eq hsnd
    simp only [delete_retry_run, hsnd]
    rw [if_neg Bool.false_ne_true, hfst]
    exact ih st (fun o2 ho2 => hall o2 (List.mem_cons_of_mem o ho2))

/-- C5: a delete task execution that does not succeed leaves the whole state
unchanged (status and remote id/URL included); a chain of failing attempts
(exhausted retries) likewise leaves the state unchanged; and a successful
execution turns the target video's status into `deleted` and clears its
remote id and URL. -/
theorem c5_delete_outcome_spec (st : AppState)
    (video_id youtube_video_id user_id youtube_channel_id : String)
    (orc : DeleteOracle) (orcs : List DeleteOracle) (now : Int) (v : VideoDoc) :
    ((delete_attempt st video_id youtube_video_id user_id youtube_channel_id orc now).2
        = false →
      (delete_attempt st video_id youtube_video_id user_id youtube_channel_id orc now).1
        = st) ∧
    ((∀ o ∈ orcs, o.remoteDelete ≠ .ok) →
      delete_retry_run st video_id youtube_video_id user_id youtube_channel_id orcs now
        = st) ∧
    ((delete_attempt st video_id youtube_video_id user_id youtube_channel_id orc now).2
        = true → v ∈ st.videos → v.id = video_id →
      videoStatus (delete_attempt st video_id youtube_video_id user_id
          youtube_channel_id orc now).1 video_id = some .deleted ∧
      videoRemoteId (delete_attempt st video_id youtube_video_id user_id
          youtube_channel_id orc now).1 video_id = some none ∧
      videoRemoteUrl (delete_attempt st video_id youtube_video_id user_id
          youtube_channel_id orc now).1 video_id = some none) := by
  refine ⟨fun h => delete_attempt_fail_eq h, ?_, ?_⟩
  · intro hall
    exact delete_retry_run_fail_eq video_id youtube_video_id user_id youtube_channel_id
      now orcs st hall
  · intro hsnd hv hid
    rcases delete_attempt_shape st video_id youtube_video_id user_id youtube_channel_id
        orc now with hs | hs
    · rw [hs] at hsnd; simp at hsnd
    · rw [hs]
      have hex : ∃ w ∈ (updateVideo st.videos video_id
          (fun u => { u with
            status := .deleted,
            schedule := { u.schedule with youtube_video_id := none, youtube_url := none },
            updated_at := now })), w.id = video_id := by
        refine ⟨_, mem_updateVideo_self hv hid, hid⟩
      have hall : ∀ w ∈ (updateVideo st.videos video_id
          (fun u => { u with
            status := .deleted,
            schedule := { u.schedule with youtube_video_id := none, youtube_url := none },
            updated_at := now })), w.id = video_id →
          w.status = .deleted ∧ w.schedule.youtube_video_id = none ∧
          w.schedule.youtube_url = none := by
        intro w hw hwid
        rcases mem_updateVideo_target hw hwid (fun u => rfl) with ⟨u, hu, huid, he⟩
        rw [he]
        exact ⟨rfl, rfl, rfl⟩
      refine ⟨?_, ?_, ?_⟩
      · exact videoObs_eq_of_all (fun u => u.status) hex
          (fun w hw hwid => (hall w hw hwid).1)
      · exact videoObs_eq_of_all (fun u => u.schedule.youtube_video_id) hex
          (fun w hw hwid => (hall w hw hwid).2.1)
      · exact videoObs_eq_of_all (fun u => u.schedule.youtube_url) hex
          (fun w hw hwid => (hall w hw hwid).2.2)

/-- C5 witness: the successful branch evaluated at the sample state, and the
failing branch of a two-attempt run of non-`ok` outcomes. -/
theorem c5_delete_outcome_spec_witness :
    videoStatus (delete_attempt stSample "v1" "yt1" "u1" "c1"
      { credsExpired := false, refresh := .ok "n", remoteDelete := .ok } 10).1 "v1"
      = some .deleted ∧
    delete_retry_run stSample "v1" "yt1" "u1" "c1"
      [{ credsExpired := false, refresh := .ok "n", remoteDelete := .otherError },
       { credsExpired := false, refresh := .ok "n", remoteDelete := .notFound }] 10
      = stSample := by
  constructor
  · exact ((c5_delete_outcome_spec stSample "v1" "yt1" "u1" "c1"
      { credsExpired := false, refresh := .ok "n", remoteDelete := .ok } [] 10 vSample).2.2
      rfl (List.mem_singleton.mpr rfl) rfl).1
  · exact (c5_delete_outcome_spec stSample "v1" "yt1" "u1" "c1"
      { credsExpired := false, refresh := .ok "n", remoteDelete := .ok }
      [{ credsExpired := false, refresh := .ok "n", remoteDelete := .otherError },
       { credsExpired := false, refresh := .ok "n", remoteDelete := .notFound }] 10
      vSample).2.1 (by intro o ho; fin_cases ho <;> simp)

/-- C6: scheduling a delete for a found video whose schedule carries no
(truthy) remote video id fails with `InvalidState` (HTTP 400, "Video not
uploaded to YouTube yet") and returns the state unchanged — in particular a
delete can never be scheduled before any publish. -/
theorem c6_schedule_delete_invalid_state (st : AppState) (video_id user_id : String)
    (scheduled_at now : Int) (newTaskId : String) (v : VideoDoc)
    (hfind : st.videos.find? (fun w => decide (w.id = video_id ∧ w.user_id = user_id))
      = some v)
    (hnull : strTruthy v.schedule.youtube_video_id = false) :
    schedule_delete st video_id scheduled_at user_id now newTaskId
      = (st, .error .invalidState) := by
  unfold schedule_delete
  rw [hfind]
  simp [hnull]

/-- C6 witness: the never-published sample video. -/
theorem c6_schedule_delete_invalid_state_witness :
    schedule_delete stNoYt "v2" 50 "u1" 10 "t9" = (stNoYt, .error .invalidState) :=
  c6_schedule_delete_invalid_state stNoYt "v2" "u1" 50 10 "t9" vNoYt rfl rfl

/-! ### Shape lemmas for the upload task -/

theorem updateVideo_map_congr2 {α : Type} {g : VideoDoc → α} {f1 f2 : VideoDoc → VideoDoc}
    (h1 : ∀ v, g (f1 v) = g v) (h2 : ∀ v, g (f2 v) = g v)
    (videos : List VideoDoc) (vid1 vid2 : String) :
    (updateVideo (updateVideo videos vid1 f1) vid2 f2).map g = videos.map g := by
  rw [updateVideo_map_congr h2, updateVideo_map_congr h1]

theorem status_failed_of_mem_update {videos : List VideoDoc} {vid : String} {w : VideoDoc}
    (hw : w ∈ updateVideo videos vid (fun v => { v with status := VideoStatus.failed }))
    (hid : w.id = vid) : w.status = .failed := by
  rcases mem_updateVideo_target hw hid (fun u => rfl) with ⟨u, hu, huid, he⟩
  rw [he]

theorem upload_attempt_parts (st : AppState) (video_id user_id youtube_channel_id : String)
    (orc : UploadOracle) (now : Int) :
    ((upload_attempt st video_id user_id youtube_channel_id orc now).1.channels
        = st.channels) ∧
    ((upload_attempt st video_id user_id youtube_channel_id orc now).1.videos.map
        (fun v => v.id) = st.videos.map (fun v => v.id)) ∧
    ((upload_attempt st video_id user_id youtube_channel_id orc now).1.videos.map
        (fun v => v.youtube_channel_id)
      = st.videos.map (fun v => v.youtube_channel_id)) := by
  simp only [upload_attempt]
  cases hv : findVideo st.videos video_id with
  | none =>
    cases hc : st.channels.find? (fun c => decide (c.id = youtube_channel_id)) with
    | none =>
      dsimp only
      exact ⟨rfl, (by apply updateVideo_map_congr <;> exact fun v => rfl),
        (by apply updateVideo_map_congr <;> exact fun v => rfl)⟩
    | some ch =>
      dsimp only
      exact ⟨rfl, (by apply updateVideo_map_congr <;> exact fun v => rfl),
        (by apply updateVideo_map_congr <;> exact fun v => rfl)⟩
  | some v0 =>
    cases hc : st.channels.find? (fun c => decide (c.id = youtube_channel_id)) with
    | none =>
      dsimp only
      exact ⟨rfl, (by apply updateVideo_map_congr <;> exact fun v => rfl),
        (by apply updateVideo_map_congr <;> exact fun v => rfl)⟩
    | some ch =>
      dsimp only
      cases hr : refresh_credentials
          (get_credentials_from_token ch.access_token ch.refresh_token orc.credsExpired)
          orc.refresh with
      | none =>
        dsimp only
        exact ⟨rfl, (by apply updateVideo_map_congr2 <;> exact fun v => rfl),
          (by apply updateVideo_map_congr2 <;> exact fun v => rfl)⟩
      | some c2 =>
        dsimp only
        cases hu : orc.upload with
        | err =>
          dsimp only [upload_video]
          exact ⟨rfl, (by apply updateVideo_map_congr2 <;> exact fun v => rfl),
            (by apply updateVideo_map_congr2 <;> exact fun v => rfl)⟩
        | ok i =>
          dsimp only [upload_video]
          exact ⟨rfl, (by apply updateVideo_map_congr2 <;> exact fun v => rfl),
            (by apply updateVideo_map_congr2 <;> exact fun v => rfl)⟩

theorem upload_attempt_err_snd (st : AppState)
    (video_id user_id youtube_channel_id : String) (orc : UploadOracle) (now : Int)
    (h : orc.upload = .err) :
    (upload_attempt st video_id user_id youtube_channel_id orc now).2 = false := by
  simp only [upload_attempt]
  cases hv : findVideo st.videos video_id with
  | none =>
    cases hc : st.channels.find? (fun c => decide (c.id = youtube_channel_id)) with
    | none => rfl
    | some ch => rfl
  | some v0 =>
    cases hc : st.channels.find? (fun c => decide (c.id = youtube_channel_id)) with
    | none => rfl
    | some ch =>
      dsimp only
      cases hr : refresh_credentials
          (get_credentials_from_token ch.access_token ch.refresh_token orc.credsExpired)
          orc.refresh with
      | none => rfl
      | some c2 =>
        dsimp only
        rw [h]
        rfl

theorem upload_attempt_fail_all (st : AppState)
    (video_id user_id youtube_channel_id : String) (orc : UploadOracle) (now : Int)
    (h : (upload_attempt st video_id user_id youtube_channel_id orc now).2 = false) :
    ∀ w ∈ (upload_attempt st video_id user_id youtube_channel_id orc now).1.videos,
      w.id = video_id → w.status = .failed := by
  intro w hw hid
  revert h hw
  simp only [upload_attempt]
  cases hv : findVideo st.videos video_id with
  | none =>
    cases hc : st.channels.find? (fun c => decide (c.id = youtube_channel_id)) with
    | none =>
      dsimp only
      intro _ hw
      exact status_failed_of_mem_update hw hid
    | some ch =>
      dsimp only
      intro _ hw
      exact status_failed_of_mem_update hw hid
  | some v0 =>
    cases hc : st.channels.find? (fun c => decide (c.id = youtube_channel_id)) with
    | none =>
      dsimp only
      intro _ hw
      exact status_failed_of_mem_update hw hid
    | some ch =>
      dsimp only
      cases hr : refresh_credentials
          (get_credentials_from_token ch.access_token ch.refresh_token orc.credsExpired)
          orc.refresh with
      | none =>
        dsimp only
        intro _ hw
        exact status_failed_of_mem_update hw hid
      | some c2 =>
        dsimp only
        cases hu : orc.upload with
        | err =>
          dsimp only [upload_video]
          intro _ hw
          exact status_failed_of_mem_update hw hid
        | ok i =>
          dsimp only [upload_video]
          intro h2
          exact absurd h2 (by simp)

theorem upload_retry_run_parts (video_id user_id youtube_channel_id : String) (now : Int) :
    ∀ (orcs : List UploadOracle) (st : AppState),
      ((upload_retry_run st video_id user_id youtube_channel_id orcs now).channels
          = st.channels) ∧
      ((upload_retry_run st video_id user_id youtube_channel_id orcs now).videos.map
          (fun v => v.id) = st.videos.map (fun v => v.id)) := by
  intro orcs
  induction orcs with
  | nil => intro st; exact ⟨rfl, rfl⟩
  | cons o rest ih =>
    intro st
    simp only [upload_retry_run]
    by_cases hs : (upload_attempt st video_id user_id youtube_channel_id o now).2 = true
    · simp only [hs, if_true]
      exact ⟨(upload_attempt_parts st video_id user_id youtube_channel_id o now).1,
        (upload_attempt_parts st video_id user_id youtube_channel_id o now).2.1⟩
    · rw [if_neg hs]
      constructor
      · rw [(ih _).1, (upload_attempt_parts st video_id user_id youtube_channel_id o now).1]
      · rw [(ih _).2, (upload_attempt_parts st video_id user_id youtube_channel_id o now).2.1]

theorem upload_retry_run_fail_all (video_id user_id youtube_channel_id : String)
    (now : Int) :
    ∀ (orcs : List UploadOracle) (st : AppState), orcs ≠ [] →
      (∀ o ∈ orcs, o.upload = .err) →
      ∀ w ∈ (upload_retry_run st video_id user_id youtube_channel_id orcs now).videos,
        w.id = video_id → w.status = .failed := by
  intro orcs
  induction orcs with
  | nil => intro st h; exact absurd rfl h
  | cons o rest ih =>
    intro st _ hall
    have hsnd : (upload_attempt st video_id user_id youtube_channel_id o now).2 = false :=
      upload_attempt_err_snd st video_id user_id youtube_channel_id o now
        (hall o (List.mem_cons_self o rest))
    simp only [upload_retry_run, hsnd]
    rw [if_neg Bool.false_ne_true]
    cases rest with
    | nil =>
      intro w hw hid
      exact upload_attempt_fail_all st video_id user_id youtube_channel_id o now hsnd w hw hid
    | cons o2 rest2 =>
      exact ih ((upload_attempt st video_id user_id youtube_channel_id o now).1)
        (by simp) (fun x hx => hall x (List.mem_cons_of_mem o hx))

/-- C2 counterexample: in the sample state the very first failed upload
attempt already sets the video's status to `failed`, although only 1 of the
`1 + max_retries` allowed attempts has run — the retry budget is far from
exhausted. -/
theorem c2_counterexample :
    videoStatus (upload_attempt stSample "v1" "u1" "c1" orcFail 10).1 "v1"
      = some .failed ∧
    1 < 1 + max_retries := by
  exact ⟨rfl, by decide⟩

/-- C2 (amended): the upload task sets the video's status to `failed` on
EVERY failed attempt, not only after the retry budget is exhausted — after
each failing attempt, and after any all-failing retry sequence, every stored
video carrying the task's video id has status `failed`. -/
theorem c2_failed_set_on_every_attempt (st : AppState)
    (video_id user_id youtube_channel_id : String) (orc : UploadOracle)
    (orcs : List UploadOracle) (now : Int) (v : VideoDoc)
    (hv : v ∈ st.videos) (hid : v.id = video_id) :
    ((upload_attempt st video_id user_id youtube_channel_id orc now).2 = false →
      videoStatus (upload_attempt st video_id user_id youtube_channel_id orc now).1
        video_id = some .failed) ∧
    (orcs ≠ [] → (∀ o ∈ orcs, o.upload = .err) →
      videoStatus (upload_retry_run st video_id user_id youtube_channel_id orcs now)
        video_id = some .failed) := by
  constructor
  · intro hsnd
    have hex : ∃ w ∈ (upload_attempt st video_id user_id youtube_channel_id orc
        now).1.videos, w.id = video_id :=
      exists_id_of_ids_eq
        (upload_attempt_parts st video_id user_id youtube_channel_id orc now).2.1
        ⟨v, hv, hid⟩
    simp only [videoStatus]
    exact videoObs_eq_of_all (fun u => u.status) hex
      (upload_attempt_fail_all st video_id user_id youtube_channel_id orc now hsnd)
  · intro hne hall
    have hex : ∃ w ∈ (upload_retry_run st video_id user_id youtube_channel_id orcs
        now).videos, w.id = video_id :=
      exists_id_of_ids_eq
        ((upload_retry_run_parts video_id user_id youtube_channel_id now) orcs st).2
        ⟨v, hv, hid⟩
    simp only [videoStatus]
    exact videoObs_eq_of_all (fun u => u.status) hex
      (upload_retry_run_fail_all video_id user_id youtube_channel_id now orcs st hne hall)

/-- C2 witness: amended statement evaluated on the sample state after a
single failed attempt and after a two-attempt all-failing run. -/
theorem c2_failed_set_on_every_attempt_witness :
    videoStatus (upload_attempt stSample "v1" "u1" "c1" orcFail 10).1 "v1"
      = some .failed ∧
    videoStatus (upload_retry_run stSample "v1" "u1" "c1" [orcFail, orcFail] 10) "v1"
      = some .failed := by
  constructor
  · exact (c2_failed_set_on_every_attempt stSample "v1" "u1" "c1" orcFail
      [orcFail, orcFail] 10 vSample (List.mem_singleton.mpr rfl) rfl).1 rfl
  · exact (c2_failed_set_on_every_attempt stSample "v1" "u1" "c1" orcFail
      [orcFail, orcFail] 10 vSample (List.mem_singleton.mpr rfl) rfl).2
      (by simp) (by intro o ho; fin_cases ho <;> rfl)

/-! ### Shape lemmas for the scheduling endpoints -/

theorem schedule_upload_found_eq (st : AppState) (video_id : String) (scheduled_at : Int)
    (youtube_channel_id user_id : String) (now : Int) (newTaskId : String) (v : VideoDoc)
    (hfind : st.videos.find? (fun w => decide (w.id = video_id ∧ w.user_id = user_id))
      = some v) :
    schedule_upload st video_id scheduled_at youtube_channel_id user_id now newTaskId
      = ({ videos := (updateVideo (updateVideo st.videos video_id
            (fun w => { w with
              schedule := { w.schedule with
                upload_scheduled_at := some scheduled_at,
                youtube_channel_id := some youtube_channel_id },
              status := .scheduled,
              updated_at := now })) video_id
            (fun w => { w with
              schedule := { w.schedule with upload_job_id := some newTaskId } })),
           channels := st.channels,
           pending := st.pending ++ [newTaskId] }, .ok newTaskId) := by
  simp only [schedule_upload]
  rw [hfind]

theorem schedule_delete_found_eq (st : AppState) (video_id : String) (scheduled_at : Int)
    (user_id : String) (now : Int) (newTaskId : String) (v : VideoDoc)
    (hfind : st.videos.find? (fun w => decide (w.id = video_id ∧ w.user_id = user_id))
      = some v)
    (ht : strTruthy v.schedule.youtube_video_id = true) :
    schedule_delete st video_id scheduled_at user_id now newTaskId
      = ({ videos := (updateVideo (updateVideo st.videos video_id
            (fun w => { w with
              schedule := { w.schedule with delete_scheduled_at := some scheduled_at },
              updated_at := now })) video_id
            (fun w => { w with
              schedule := { w.schedule with delete_job_id := some newTaskId } })),
           channels := st.channels,
           pending := st.pending ++ [newTaskId] },
        .ok (newTaskId,
          { video_id := video_id,
            youtube_video_id := (v.schedule.youtube_video_id).getD "",
            user_id := user_id,
            youtube_channel_id := (v.schedule.youtube_channel_id).getD "" })) := by
  simp only [schedule_delete]
  rw [hfind]
  dsimp only
  simp only [ht, if_true]

/-- C7 counterexample: in the sample state the video is `published`, yet
`schedule_upload` with a timestamp of 0 at current time 100 succeeds and moves
it to `scheduled` with the past timestamp recorded — a `published → scheduled`
transition outside the §4.4 table, and a `scheduled` video whose
`upload_scheduled_at` is not in the future. -/
theorem c7_counterexample :
    videoStatus stSample "v1" = some .published ∧
    videoStatus (schedule_upload stSample "v1" 0 "c1" "u1" 100 "t2").1 "v1"
      = some .scheduled ∧
    videoUploadAt (schedule_upload stSample "v1" 0 "c1" "u1" 100 "t2").1 "v1"
      = some (some 0) ∧
    (0 : Int) ≤ 100 := by
  exact ⟨rfl, rfl, rfl, by decide⟩

/-- C7 (amended): the statuses written always lie in the `VideoStatus` enum,
but the state invariants are not enforced: `schedule_upload` moves any found
video to `scheduled` — regardless of its current status and with any
(possibly past) timestamp — so a `scheduled` video need not have a future
`upload_scheduled_at` and transitions outside the §4.4 table are
observable. -/
theorem c7_schedule_upload_unguarded (st : AppState) (video_id : String)
    (scheduled_at : Int) (youtube_channel_id user_id : String) (now : Int)
    (newTaskId : String) (v : VideoDoc)
    (hfind : st.videos.find? (fun w => decide (w.id = video_id ∧ w.user_id = user_id))
      = some v) :
    (schedule_upload st video_id scheduled_at youtube_channel_id user_id now
        newTaskId).2 = .ok newTaskId ∧
    videoStatus (schedule_upload st video_id scheduled_at youtube_channel_id user_id
        now newTaskId).1 video_id = some .scheduled ∧
    videoUploadAt (schedule_upload st video_id scheduled_at youtube_channel_id user_id
        now newTaskId).1 video_id = some (some scheduled_at) := by
  have hv : v ∈ st.videos := List.mem_of_find?_eq_some hfind
  have hp := List.find?_some hfind
  simp only [decide_eq_true_eq] at hp
  have hvid : v.id = video_id := hp.1
  rw [schedule_upload_found_eq st video_id scheduled_at youtube_channel_id user_id now
    newTaskId v hfind]
  refine ⟨rfl, ?_, ?_⟩
  · simp only [videoStatus]
    refine videoObs_eq_of_all (fun u => u.status)
      ⟨_, mem_updateVideo_self (mem_updateVideo_self hv hvid) hvid, hvid⟩ ?_
    intro w hw hwid
    rcases mem_updateVideo_target hw hwid (fun u => rfl) with ⟨u, hu, huid, he⟩
    rcases mem_updateVideo_target hu huid (fun u => rfl) with ⟨x, hx, hxid, he2⟩
    rw [he, he2]
  · simp only [videoUploadAt]
    refine videoObs_eq_of_all (fun u => u.schedule.upload_scheduled_at)
      ⟨_, mem_updateVideo_self (mem_updateVideo_self hv hvid) hvid, hvid⟩ ?_
    intro w hw hwid
    rcases mem_updateVideo_target hw hwid (fun u => rfl) with ⟨u, hu, huid, he⟩
    rcases mem_updateVideo_target hu huid (fun u => rfl) with ⟨x, hx, hxid, he2⟩
    rw [he, he2]

/-- C7 witness: amended statement evaluated at the sample state, whose video
is `published`, with a past timestamp. -/
theorem c7_schedule_upload_unguarded_witness :
    videoStatus (schedule_upload stSample "v1" 0 "c1" "u1" 100 "t2").1 "v1"
      = some .scheduled ∧
    videoUploadAt (schedule_upload stSample "v1" 0 "c1" "u1" 100 "t2").1 "v1"
      = some (some 0) := by
  have h := c7_schedule_upload_unguarded stSample "v1" 0 "c1" "u1" 100 "t2" vSample rfl
  exact ⟨h.2.1, h.2.2⟩

/-- C3 counterexample: the sample video already carries the pending upload
task "t1"; re-scheduling an upload submits "t2" while "t1" remains in the
broker's pending set, i.e. the old task id is still invocable and was not
cancelled. -/
theorem c3_counterexample :
    vSample.schedule.upload_job_id = some "t1" ∧
    "t1" ∈ stSample.pending ∧
    "t1" ∈ (schedule_upload stSample "v1" 20 "c1" "u1" 10 "t2").1.pending := by
  refine ⟨rfl, by decide, by decide⟩

/-- C3 (amended): no cancellation occurs anywhere — scheduling an upload (or
a delete, when valid) for a found video simply appends the newly submitted
task id to the broker's pending set, leaving every previously pending task
(including a prior job for the same action) invocable. -/
theorem c3_no_cancellation (st : AppState) (video_id : String) (scheduled_at : Int)
    (youtube_channel_id user_id : String) (now : Int) (newTaskId : String) (v : VideoDoc)
    (hfind : st.videos.find? (fun w => decide (w.id = video_id ∧ w.user_id = user_id))
      = some v) :
    ((schedule_upload st video_id scheduled_at youtube_channel_id user_id now
        newTaskId).1.pending = st.pending ++ [newTaskId]) ∧
    (strTruthy v.schedule.youtube_video_id = true →
      (schedule_delete st video_id scheduled_at user_id now newTaskId).1.pending
        = st.pending ++ [newTaskId]) := by
  constructor
  · rw [schedule_upload_found_eq st video_id scheduled_at youtube_channel_id user_id
      now newTaskId v hfind]
  · intro ht
    rw [schedule_delete_found_eq st video_id scheduled_at user_id now newTaskId v
      hfind ht]

/-- C3 witness: re-scheduling on the sample state leaves "t1" pending and
appends the new ids. -/
theorem c3_no_cancellation_witness :
    (schedule_upload stSample "v1" 20 "c1" "u1" 10 "t2").1.pending = ["t1", "t2"] ∧
    (schedule_delete stSample "v1" 20 "u1" 10 "t3").1.pending = ["t1", "t3"] := by
  have h := c3_no_cancellation stSample "v1" 20 "c1" "u1" 10 "t2" vSample rfl
  have h2 := c3_no_cancellation stSample "v1" 20 "c1" "u1" 10 "t3" vSample rfl
  exact ⟨h.1, h2.2 rfl⟩

theorem delete_attempt_channels (st : AppState)
    (video_id youtube_video_id user_id youtube_channel_id : String)
    (orc : DeleteOracle) (now : Int) :
    (delete_attempt st video_id youtube_video_id user_id youtube_channel_id orc
      now).1.channels = st.channels := by
  rcases delete_attempt_shape st video_id youtube_video_id user_id youtube_channel_id
    orc now with hs | hs <;> rw [hs]

/-- C8 counterexample: during an upload task on the sample state the gateway
refreshes the expired credential to the fresh token "newTok", yet after the
task the stored channel record still holds the old access token "oldTok" —
nothing was persisted back. -/
theorem c8_counterexample :
    refresh_credentials (get_credentials_from_token "oldTok" "r1" true) (.ok "newTok")
      = some { token := "newTok", refresh_token := "r1", expired := false } ∧
    (upload_attempt stSample "v1" "u1" "c1"
      { credsExpired := true, refresh := .ok "newTok", upload := .ok "yt9" } 10).1.channels
      = [{ id := "c1", access_token := "oldTok", refresh_token := "r1" }] ∧
    "newTok" ≠ "oldTok" := by
  exact ⟨rfl, rfl, by decide⟩

/-- C8 (amended): a refresh only mutates the in-memory credential object —
`refresh_credentials` returns the new token pair but neither task ever writes
the `youtube_channels` collection, so the refreshed tokens are never persisted
into the owning Channel record and later reads see the old stored tokens. -/
theorem c8_refresh_never_persisted (st : AppState)
    (video_id youtube_video_id user_id youtube_channel_id : String)
    (uOrc : UploadOracle) (dOrc : DeleteOracle) (now : Int)
    (c : Credentials) (t : String) :
    ((upload_attempt st video_id user_id youtube_channel_id uOrc now).1.channels
        = st.channels) ∧
    ((delete_attempt st video_id youtube_video_id user_id youtube_channel_id dOrc
        now).1.channels = st.channels) ∧
    (c.expired = true → c.refresh_token.isEmpty = false →
      refresh_credentials c (.ok t) = some { c with token := t, expired := false }) := by
  refine ⟨(upload_attempt_parts st video_id user_id youtube_channel_id uOrc now).1,
    delete_attempt_channels st video_id youtube_video_id user_id youtube_channel_id
      dOrc now, ?_⟩
  intro h1 h2
  simp [refresh_credentials, h1, h2]

/-- C8 witness: the amended statement at the sample state with an expired
credential whose refresh succeeds. -/
theorem c8_refresh_never_persisted_witness :
    (upload_attempt stSample "v1" "u1" "c1"
      { credsExpired := true, refresh := .ok "newTok", upload := .ok "yt9" } 10).1.channels
      = stSample.channels ∧
    refresh_credentials { token := "a", refresh_token := "r", expired := true } (.ok "b")
      = some { token := "b", refresh_token := "r", expired := false } := by
  have h := c8_refresh_never_persisted stSample "v1" "yt1" "u1" "c1"
    { credsExpired := true, refresh := .ok "newTok", upload := .ok "yt9" }
    { credsExpired := false, refresh := .ok "x", remoteDelete := .ok } 10
    { token := "a", refresh_token := "r", expired := true } "b"
  exact ⟨h.1, h.2.2 rfl rfl⟩

/-! ### Lemmas about the cleanup sweep -/

theorem sweep_args_mem {videos : List VideoDoc} {now : Int} {v : VideoDoc}
    (hv : v ∈ videos) (hm : sweepMatch now v = true)
    (ht : strTruthy v.schedule.youtube_video_id = true) :
    ({ video_id := v.id, youtube_video_id := (v.schedule.youtube_video_id).getD "",
       user_id := v.user_id, youtube_channel_id := (v.youtube_channel_id).getD "" }
      : DeleteTaskArgs) ∈ (cleanup_expired_videos videos now).2 := by
  simp only [cleanup_expired_videos]
  refine List.mem_map.mpr ⟨v, ?_, rfl⟩
  exact List.mem_filter.mpr ⟨List.mem_filter.mpr ⟨hv, hm⟩, ht⟩

/-- C4 counterexample: the sample video is overdue (`delete_scheduled_at` 50,
now 100), `published`, and carries a remote id; the first sweep submits a
delete task for it, and — because submitting changes nothing in the store —
the second sweep run immediately afterwards submits for it AGAIN, so the
second run is not a no-op. -/
theorem c4_counterexample :
    (cleanup_expired_videos (cleanup_expired_videos [vSample] 100).1 100).2
      = [{ video_id := "v1", youtube_video_id := "yt1", user_id := "u1",
           youtube_channel_id := "" }] ∧
    (cleanup_expired_videos [vSample] 100).2 ≠ [] := by
  exact ⟨rfl, by decide⟩

/-- C4 (amended): the sweep performs no database write, so running it twice
in a row with no intervening activity re-submits a delete task for EVERY
video the first run handled — the sweep becomes a no-op for a video only
after its delete task has actually run and moved the status out of
`published`/`scheduled`. -/
theorem c4_sweep_resubmits (videos : List VideoDoc) (now : Int) (v : VideoDoc)
    (hv : v ∈ videos) (hm : sweepMatch now v = true)
    (ht : strTruthy v.schedule.youtube_video_id = true) :
    ((cleanup_expired_videos videos now).1 = videos) ∧
    (({ video_id := v.id, youtube_video_id := (v.schedule.youtube_video_id).getD "",
        user_id := v.user_id, youtube_channel_id := (v.youtube_channel_id).getD "" }
       : DeleteTaskArgs) ∈ (cleanup_expired_videos videos now).2) ∧
    (({ video_id := v.id, youtube_video_id := (v.schedule.youtube_video_id).getD "",
        user_id := v.user_id, youtube_channel_id := (v.youtube_channel_id).getD "" }
       : DeleteTaskArgs)
      ∈ (cleanup_expired_videos (cleanup_expired_videos videos now).1 now).2) := by
  exact ⟨rfl, sweep_args_mem hv hm ht, sweep_args_mem hv hm ht⟩

/-- C4 witness: the amended statement at the sample store. -/
theorem c4_sweep_resubmits_witness :
    ({ video_id := "v1", youtube_video_id := "yt1", user_id := "u1",
       youtube_channel_id := "" } : DeleteTaskArgs)
      ∈ (cleanup_expired_videos (cleanup_expired_videos [vSample] 100).1 100).2 :=
  (c4_sweep_resubmits [vSample] 100 vSample (List.mem_singleton.mpr rfl)
    (by decide) rfl).2.2

/-- C9: no operation of this core ever writes the top-level
`youtube_channel_id` field of a video document (the schedule-upload endpoint
writes the channel reference under `schedule.youtube_channel_id` instead),
and the cleanup sweep does not modify the store; consequently, on any store
whose videos all have a missing top-level `youtube_channel_id`, every delete
task the sweep enqueues receives the empty string as its channel id. -/
theorem c9_top_channel_never_written (st : AppState) (video_id : String)
    (scheduled_at : Int) (youtube_channel_id user_id youtube_video_id : String)
    (now : Int) (newTaskId : String) (uOrc : UploadOracle) (dOrc : DeleteOracle)
    (videos : List VideoDoc) :
    ((schedule_upload st video_id scheduled_at youtube_channel_id user_id now
        newTaskId).1.videos.map (fun v => v.youtube_channel_id)
      = st.videos.map (fun v => v.youtube_channel_id)) ∧
    ((schedule_delete st video_id scheduled_at user_id now newTaskId).1.videos.map
        (fun v => v.youtube_channel_id)
      = st.videos.map (fun v => v.youtube_channel_id)) ∧
    ((upload_attempt st video_id user_id youtube_channel_id uOrc now).1.videos.map
        (fun v => v.youtube_channel_id)
      = st.videos.map (fun v => v.youtube_channel_id)) ∧
    ((delete_attempt st video_id youtube_video_id user_id youtube_channel_id dOrc
        now).1.videos.map (fun v => v.youtube_channel_id)
      = st.videos.map (fun v => v.youtube_channel_id)) ∧
    ((cleanup_expired_videos videos now).1 = videos) ∧
    ((∀ v ∈ videos, v.youtube_channel_id = none) →
      ∀ a ∈ (cleanup_expired_videos videos now).2, a.youtube_channel_id = "") := by
  refine ⟨?_, ?_, ?_, ?_, rfl, ?_⟩
  · simp only [schedule_upload]
    cases hf : st.videos.find? (fun w => decide (w.id = video_id ∧ w.user_id = user_id))
        with
    | none => rfl
    | some v =>
      dsimp only
      apply updateVideo_map_congr2 <;> exact fun v => rfl
  · simp only [schedule_delete]
    cases hf : st.videos.find? (fun w => decide (w.id = video_id ∧ w.user_id = user_id))
        with
    | none => rfl
    | some v =>
      dsimp only
      by_cases ht : strTruthy v.schedule.youtube_video_id = true
      · simp only [ht, if_true]
        apply updateVideo_map_congr2 <;> exact fun v => rfl
      · simp [ht]
  · exact (upload_attempt_parts st video_id user_id youtube_channel_id uOrc now).2.2
  · rcases delete_attempt_shape st video_id youtube_video_id user_id youtube_channel_id
        dOrc now with hs | hs
    · rw [hs]
    · rw [hs]
      apply updateVideo_map_congr <;> exact fun v => rfl
  · intro hnone a ha
    simp only [cleanup_expired_videos] at ha
    rcases List.mem_map.mp ha with ⟨w, hw, he⟩
    rcases List.mem_filter.mp hw with ⟨hw2, htw⟩
    rcases List.mem_filter.mp hw2 with ⟨hwv, hwm⟩
    rw [← he]
    simp [hnone w hwv]

/-- C9 witness: on the sample store (whose video has no top-level channel id)
the endpoint leaves the top-level field untouched and the sweep's enqueued
argument tuple carries the empty channel id. -/
theorem c9_top_channel_never_written_witness :
    (schedule_upload stSample "v1" 20 "c1" "u1" 100 "t2").1.videos.map
        (fun v => v.youtube_channel_id) = [none] ∧
    ({ video_id := "v1", youtube_video_id := "yt1", user_id := "u1",
       youtube_channel_id := "" } : DeleteTaskArgs).youtube_channel_id = "" := by
  have h := c9_top_channel_never_written stSample "v1" 20 "c1" "u1" "yt1" 100 "t2"
    orcFail { credsExpired := false, refresh := .ok "x", remoteDelete := .ok } [vSample]
  constructor
  · rw [h.1]
    rfl
  · exact h.2.2.2.2.2 (by intro v hv; fin_cases hv <;> rfl) _
      (sweep_args_mem (List.mem_singleton.mpr rfl) (by decide) rfl)

/-- C10: a video matched by the sweep query whose `schedule.youtube_video_id`
is falsy is silently skipped — no delete task is enqueued for it and the
store is returned unchanged, so the same holds on every later run. -/
theorem c10_sweep_skips_null_remote (videos : List VideoDoc) (now : Int) (v : VideoDoc)
    (hv : v ∈ videos) (hm : sweepMatch now v = true)
    (ht : strTruthy v.schedule.youtube_video_id = false)
    (huniq : ∀ w ∈ videos, w.id = v.id → w = v) :
    ((cleanup_expired_videos videos now).2.filter
        (fun a => decide (a.video_id = v.id)) = []) ∧
    ((cleanup_expired_videos videos now).1 = videos) := by
  refine ⟨?_, rfl⟩
  rw [List.filter_eq_nil_iff]
  intro a ha hdec
  simp only [cleanup_expired_videos] at ha
  rcases List.mem_map.mp ha with ⟨w, hw, he⟩
  rcases List.mem_filter.mp hw with ⟨hw2, htw⟩
  rcases List.mem_filter.mp hw2 with ⟨hwv, hwm⟩
  have haid : a.video_id = v.id := of_decide_eq_true hdec
  rw [← he] at haid
  have hwid : w.id = v.id := haid
  have hwv2 : w = v := huniq w hwv hwid
  rw [hwv2, ht] at htw
  cases htw

/-- C10 witness: the never-published overdue sample video is skipped by the
sweep and the store is unchanged. -/
theorem c10_sweep_skips_null_remote_witness :
    ((cleanup_expired_videos [vNoYt] 100).2.filter
        (fun a => decide (a.video_id = "v2")) = []) ∧
    ((cleanup_expired_videos [vNoYt] 100).1 = [vNoYt]) :=
  c10_sweep_skips_null_remote [vNoYt] 100 vNoYt (List.mem_singleton.mpr rfl)
    (by decide) rfl (by intro w hw _; simpa using hw)

end YTSched
